import Mathlib

/-!
Verification of the rate-limited batch follow engine
(`src/unnamed/part_001`, the Next.js API handler of the repository,
together with its configuration in `src/config.ts`).

The embedding models wall-clock time as integers (milliseconds since the
epoch, as produced by `Date.now()`), and every `await sleep(ms)` as an
exact advance of the clock by `ms` (computation itself takes zero model
time).  Upstream HTTP responses are supplied by explicit oracles, one
response per request, so all functions are pure and executable.

Fields of the source interfaces that the engine never reads (`type`,
`repo.name` on events, `created_at`/`updated_at` on the acting user) are
elided from the record types; ISO-8601 timestamp strings are modelled by
their `Date.getTime()` values (integer milliseconds).
-/

namespace Sheikh

/-! ## Configuration (`src/config.ts`) -/

/-- `CONFIG.RATE_LIMITS.FOLLOWS_PER_MINUTE` -/
def FOLLOWS_PER_MINUTE : Nat := 20

/-- `CONFIG.RATE_LIMITS.MAX_FOLLOWERS` -/
def MAX_FOLLOWERS : Nat := 1000

/-- `CONFIG.RATE_LIMITS.MIN_DELAY_BETWEEN_FOLLOWS` (milliseconds) -/
def MIN_DELAY_BETWEEN_FOLLOWS : Int := 3000

/-- `CONFIG.ACTIVITY_CHECK.MAX_DAYS_INACTIVE` -/
def MAX_DAYS_INACTIVE : ℚ := 30

/-- `CONFIG.ACTIVITY_CHECK.MIN_REPOS` -/
def MIN_REPOS : Int := 3

/-- `CONFIG.ACTIVITY_CHECK.MIN_EVENTS` -/
def MIN_EVENTS : Int := 5

/-- `CONFIG.ACTIVITY_CHECK.CHECK_INTERVAL` (milliseconds) -/
def CHECK_INTERVAL : Int := 2000

/-- `CONFIG.ACTIVITY_CHECK.MIN_STARS` -/
def MIN_STARS : Int := 1

/-- `CONFIG.ACTIVITY_CHECK.MIN_FOLLOWERS` -/
def MIN_FOLLOWERS : Int := 1

/-- `CONFIG.PAGINATION.MAX_PAGES` -/
def MAX_PAGES : Nat := 10

/-- `CONFIG.PAGINATION.DELAY` (milliseconds) -/
def PAGINATION_DELAY : Int := 2000

/-- `CONFIG.ANTI_DETECTION.MAX_CONSECUTIVE_ACTIONS` -/
def MAX_CONSECUTIVE_ACTIONS : Nat := 50

/-- `CONFIG.ANTI_DETECTION.COOL_DOWN_PERIOD` (milliseconds) -/
def COOL_DOWN_PERIOD : Int := 900000

/-- `CONFIG.ERROR_HANDLING.MAX_CONSECUTIVE_ERRORS` -/
def MAX_CONSECUTIVE_ERRORS : Nat := 3

/-- `CONFIG.ERROR_HANDLING.ERROR_THRESHOLD` -/
def ERROR_THRESHOLD : Nat := 5

/-- `CONFIG.ERROR_HANDLING.PAUSE_DURATION` (milliseconds) -/
def PAUSE_DURATION : Int := 900000

/-! ## RateLimiter (`src/unnamed/part_001`, lines 70-119)

The private fields of `class RateLimiter`.  `errorCounts` is only used by
`handleError`, which none of the verified claims exercise, so it is not
carried here. -/

structure RLState where
  followsInLastMinute : Nat
  lastFollowTime : Int
  lastResetTime : Int
  deriving Repr, DecidableEq

/-- Observables of one `waitForRateLimit()` call: the state afterwards, the
two sleeps it performed (window sleep first, then spacing sleep), and the
absolute time of completion (`now` at call entry plus both sleeps). -/
structure AdmitResult where
  state : RLState
  windowSleep : Int
  spacingSleep : Int
  finish : Int
  deriving Repr, DecidableEq

/-- `RateLimiter.waitForRateLimit` (lines 76-101), with `now` the value of
`Date.now()` at call entry.  Note that the source computes
`timeSinceLastFollow` from the `now` captured at entry even if a window
sleep happened in between; the model reproduces that. -/
def waitForRateLimit (s0 : RLState) (now : Int) : AdmitResult :=
  -- Reset counter if a minute has passed
  let s1 :=
    if 60000 ≤ now - s0.lastResetTime then
      { s0 with followsInLastMinute := 0, lastResetTime := now }
    else s0
  -- Check if we've hit the rate limit
  let step2 :=
    if FOLLOWS_PER_MINUTE ≤ s1.followsInLastMinute then
      let waitTime := 60000 - (now - s1.lastResetTime)
      ({ s1 with followsInLastMinute := 0, lastResetTime := now + waitTime },
        waitTime, now + waitTime)
    else (s1, 0, now)
  let s2 := step2.1
  let wSleep := step2.2.1
  let t1 := step2.2.2
  -- Ensure minimum delay between follows
  let timeSinceLastFollow := now - s2.lastFollowTime
  let sSleep :=
    if timeSinceLastFollow < MIN_DELAY_BETWEEN_FOLLOWS then
      MIN_DELAY_BETWEEN_FOLLOWS - timeSinceLastFollow
    else 0
  let finish := t1 + sSleep
  { state := { s2 with followsInLastMinute := s2.followsInLastMinute + 1,
                       lastFollowTime := finish },
    windowSleep := wSleep, spacingSleep := sSleep, finish := finish }

/-- Completion times of a sequence of `waitForRateLimit()` calls: the i-th
call enters at the previous call's completion time plus the i-th external
gap (so a gap of `0` models back-to-back calls). -/
def admitTrace (s : RLState) (clock : Int) : List Int → List Int
  | [] => []
  | d :: ds =>
      let r := waitForRateLimit s (clock + d)
      r.finish :: admitTrace r.state r.finish ds

lemma waitForRateLimit_windowSleep_nonneg (s : RLState) (now : Int) :
    0 ≤ (waitForRateLimit s now).windowSleep := by
  simp only [waitForRateLimit, FOLLOWS_PER_MINUTE]
  split_ifs <;> simp_all <;> try omega

lemma waitForRateLimit_spacingSleep_nonneg (s : RLState) (now : Int) :
    0 ≤ (waitForRateLimit s now).spacingSleep := by
  simp only [waitForRateLimit, FOLLOWS_PER_MINUTE, MIN_DELAY_BETWEEN_FOLLOWS]
  split_ifs <;> simp_all <;> try omega

lemma waitForRateLimit_finish_def (s : RLState) (now : Int) :
    (waitForRateLimit s now).finish =
      now + (waitForRateLimit s now).windowSleep +
        (waitForRateLimit s now).spacingSleep := by
  simp only [waitForRateLimit, FOLLOWS_PER_MINUTE, MIN_DELAY_BETWEEN_FOLLOWS]
  split_ifs <;> simp_all <;> try omega

lemma waitForRateLimit_lastFollowTime (s : RLState) (now : Int) :
    (waitForRateLimit s now).state.lastFollowTime =
      (waitForRateLimit s now).finish := rfl

/-- Core spacing fact: a `waitForRateLimit` call completes no earlier than
the previously recorded follow time plus the configured minimum delay,
whatever the state and clock. -/
lemma waitForRateLimit_spacing (s : RLState) (now : Int) :
    s.lastFollowTime + MIN_DELAY_BETWEEN_FOLLOWS ≤
      (waitForRateLimit s now).finish := by
  simp only [waitForRateLimit, FOLLOWS_PER_MINUTE, MIN_DELAY_BETWEEN_FOLLOWS]
  split_ifs <;> simp_all <;> try omega

lemma admitTrace_length (s : RLState) (clock : Int) (ds : List Int) :
    (admitTrace s clock ds).length = ds.length := by
  induction ds generalizing s clock with
  | nil => rfl
  | cons d ds ih => simp [admitTrace, ih]

/-- Consecutive completion times in any `waitForRateLimit` call trace are
at least the minimum inter-follow delay apart. -/
lemma admitTrace_chain (s : RLState) (clock : Int) (ds : List Int) :
    List.Chain' (fun a b => a + MIN_DELAY_BETWEEN_FOLLOWS ≤ b)
      (admitTrace s clock ds) := by
  induction ds generalizing s clock with
  | nil => simp [admitTrace]
  | cons d ds ih =>
    cases ds with
    | nil => simp [admitTrace]
    | cons d' ds' =>
      simp only [admitTrace, List.chain'_cons]
      constructor
      · have h := waitForRateLimit_spacing
          (waitForRateLimit s (clock + d)).state
          ((waitForRateLimit s (clock + d)).finish + d')
        rwa [waitForRateLimit_lastFollowTime] at h
      · exact ih _ _

/-- Elements `k` apart in a chain with additive gap `c ≥ 0` differ by at
least `c * k`. -/
lemma chain'_getD_gap (l : List Int) (c : Int)
    (h : List.Chain' (fun a b => a + c ≤ b) l) :
    ∀ (k i : Nat), i + k < l.length →
      l.getD i 0 + c * k ≤ l.getD (i + k) 0 := by
  intro k
  induction k with
  | zero => intro i hi; simp
  | succ k ih =>
    intro i hi
    have hik : i + k < l.length := by omega
    have h1 := ih i hik
    have h2 := (List.chain'_iff_get.mp h) (i + k) (by omega)
    rw [← List.getD_eq_get l 0 (by omega : i + k < l.length),
        ← List.getD_eq_get l 0 (by omega : i + k + 1 < l.length)] at h2
    have : l.getD (i + (k + 1)) 0 = l.getD (i + k + 1) 0 := by
      ring_nf
    rw [this]
    push_cast
    nlinarith [h1, h2]

/-- C2: for the RateLimiter with its configured cap of `FOLLOWS_PER_MINUTE`
actions per 60-second window, (a) a call entering while the window already
holds the cap and has not yet expired sleeps exactly the remaining window
time, `60000 - (now - windowStart)`; (b) along any trace of `admit` calls
(in particular back-to-back calls with zero external gaps), completions
that are `FOLLOWS_PER_MINUTE` apart in sequence are at least 60000 ms
apart, so at most `FOLLOWS_PER_MINUTE` actions complete in any rolling
60-second half-open interval. -/
theorem rateLimiter_window_cap :
    (∀ (s : RLState) (now : Int),
      FOLLOWS_PER_MINUTE ≤ s.followsInLastMinute →
      now - s.lastResetTime < 60000 →
      (waitForRateLimit s now).windowSleep = 60000 - (now - s.lastResetTime)) ∧
    (∀ (s : RLState) (clock : Int) (ds : List Int) (i j : Nat),
      j < (admitTrace s clock ds).length →
      i + FOLLOWS_PER_MINUTE ≤ j →
      (admitTrace s clock ds).getD i 0 + 60000 ≤
        (admitTrace s clock ds).getD j 0) := by
  constructor
  · intro s now h1 h2
    have hr : ¬ (60000 ≤ now - s.lastResetTime) := by omega
    simp only [waitForRateLimit, if_neg hr, if_pos h1]
  · intro s clock ds i j hj hij
    have hchain := admitTrace_chain s clock ds
    have hgap := chain'_getD_gap _ _ hchain (j - i) i (by omega)
    have hji : i + (j - i) = j := by
      simp only [FOLLOWS_PER_MINUTE] at hij; omega
    rw [hji] at hgap
    simp only [MIN_DELAY_BETWEEN_FOLLOWS] at hgap
    simp only [FOLLOWS_PER_MINUTE] at hij
    omega

/-- Witness for C2 at concrete inputs: a limiter that has already admitted
20 actions in a window started at time 0 sleeps 59000 ms when entered at
time 1000; and in a trace of 21 back-to-back calls the 21st completion is
at least 60000 ms after the 1st. -/
theorem rateLimiter_window_cap_witness :
    (waitForRateLimit ⟨20, 0, 0⟩ 1000).windowSleep = 59000 ∧
    (admitTrace ⟨0, 0, 0⟩ 0 (List.replicate 21 0)).getD 0 0 + 60000 ≤
      (admitTrace ⟨0, 0, 0⟩ 0 (List.replicate 21 0)).getD 20 0 := by
  constructor
  · have h := rateLimiter_window_cap.1 ⟨20, 0, 0⟩ 1000 (by decide) (by decide)
    simpa using h
  · exact rateLimiter_window_cap.2 ⟨0, 0, 0⟩ 0 (List.replicate 21 0) 0 20
      (by simp [admitTrace_length]) (by decide)

/-- C3: (a) along any trace of `waitForRateLimit` calls, consecutive
completion times (the recorded action timestamps) are separated by at
least `MIN_DELAY_BETWEEN_FOLLOWS` (3000 ms); (b) whenever the time since
the last recorded action, measured at call entry, is shorter than the
minimum, the call's spacing sleep is exactly the difference. -/
theorem rateLimiter_min_spacing :
    (∀ (s : RLState) (clock : Int) (ds : List Int),
      List.Chain' (fun a b => a + MIN_DELAY_BETWEEN_FOLLOWS ≤ b)
        (admitTrace s clock ds)) ∧
    (∀ (s : RLState) (now : Int),
      now - s.lastFollowTime < MIN_DELAY_BETWEEN_FOLLOWS →
      (waitForRateLimit s now).spacingSleep =
        MIN_DELAY_BETWEEN_FOLLOWS - (now - s.lastFollowTime)) := by
  constructor
  · exact admitTrace_chain
  · intro s now h
    simp only [waitForRateLimit, MIN_DELAY_BETWEEN_FOLLOWS,
      FOLLOWS_PER_MINUTE] at *
    split_ifs <;> simp_all <;> try omega

/-- Witness for C3 at concrete inputs: a three-call back-to-back trace has
the spacing chain property, and a call arriving 1000 ms after the last
recorded follow sleeps exactly 2000 ms for spacing. -/
theorem rateLimiter_min_spacing_witness :
    List.Chain' (fun a b => a + MIN_DELAY_BETWEEN_FOLLOWS ≤ b)
      (admitTrace ⟨0, 0, 0⟩ 0 [0, 0, 0]) ∧
    (waitForRateLimit ⟨0, 5000, 0⟩ 6000).spacingSleep =
      MIN_DELAY_BETWEEN_FOLLOWS - (6000 - 5000) :=
  ⟨rateLimiter_min_spacing.1 _ _ _,
    rateLimiter_min_spacing.2 _ _ (by decide)⟩

/-! ## ActivityClassifier (`src/unnamed/part_001`, lines 169-234)

The three upstream fetches of `isActiveUser` are modelled as `Option`
values: `none` stands for a failed fetch (a rejected promise or a non-2xx
response, both of which land in the function's `catch`). -/

structure GitHubUser where
  login : String
  followers : Int
  public_repos : Int
  deriving Repr, DecidableEq

structure GitHubRepo where
  stargazers_count : Int
  created_at : Int
  pushed_at : Int
  updated_at : Int
  deriving Repr, DecidableEq

structure GitHubEvent where
  created_at : Int
  deriving Repr, DecidableEq

/-- The `ActivityItem` shape (lines 27-31): events carry only
`created_at`, repositories carry all three timestamps. -/
structure ActivityItem where
  created_at : Int
  pushed_at : Option Int
  updated_at : Option Int
  deriving Repr, DecidableEq

/-- The `activityItems` array built at lines 209-216. -/
def toActivityItems (evs : List GitHubEvent) (rps : List GitHubRepo) :
    List ActivityItem :=
  evs.map (fun e => ⟨e.created_at, none, none⟩) ++
    rps.map (fun r => ⟨r.created_at, some r.pushed_at, some r.updated_at⟩)

/-- The `dates` array of one item (lines 219-223): `created_at` always,
`pushed_at`/`updated_at` when present. -/
def itemDates (it : ActivityItem) : List Int :=
  [it.created_at] ++ it.pushed_at.toList ++ it.updated_at.toList

/-- The `latestActivity` reduce (lines 218-226): a fold of `max` over all
item dates, seeded with `new Date(0)`, i.e. the epoch timestamp `0`. -/
def latestActivity (items : List ActivityItem) : Int :=
  items.foldl (fun latest it => (itemDates it).foldl max latest) 0

/-- `isActiveUser` (lines 169-234) given the outcomes of its three
fetches and the value of `Date.now()` at line 228.  The elapsed-days
quotient is taken in `ℚ`, the exact idealisation of the source's
floating-point division. -/
def isActiveUser (profile : Option GitHubUser)
    (events : Option (List GitHubEvent)) (repos : Option (List GitHubRepo))
    (now : Int) : Bool :=
  match profile, events, repos with
  | some u, some evs, some rps =>
    -- Check basic user criteria
    if u.followers < MIN_FOLLOWERS ∨ u.public_repos < MIN_REPOS then false
    -- Check repository criteria
    else if (rps.length : Int) < MIN_REPOS then false
    -- Check repository stars
    else if !(rps.any fun r => decide (MIN_STARS ≤ r.stargazers_count)) then
      false
    -- Check activity
    else if (evs.length : Int) < MIN_EVENTS then false
    else
      decide
        (((now - latestActivity (toActivityItems evs rps) : Int) : ℚ) /
            86400000 < MAX_DAYS_INACTIVE)
  | _, _, _ => false

/-- Modelled from the spec (§4.3): the reference five-step decision
predicate that claim C7 compares the code against.  Checks run in order
and short-circuit false; the recency check takes the maximum over the
union of event timestamps and repository created/pushed/updated
timestamps, with no extra seed element. -/
def specUnionTimestamps (evs : List GitHubEvent) (rps : List GitHubRepo) :
    List Int :=
  evs.map (fun e => e.created_at) ++
    rps.flatMap (fun r => [r.created_at, r.pushed_at, r.updated_at])

/-- Modelled from the spec (§4.3): the ordered five-check eligibility
predicate. -/
def specEligible (u : GitHubUser) (evs : List GitHubEvent)
    (rps : List GitHubRepo) (now : Int) : Bool :=
  if ¬ (MIN_FOLLOWERS ≤ u.followers ∧ MIN_REPOS ≤ u.public_repos) then false
  else if ¬ (MIN_REPOS ≤ (rps.length : Int)) then false
  else if ¬ (∃ r ∈ rps, MIN_STARS ≤ r.stargazers_count) then false
  else if ¬ (MIN_EVENTS ≤ (evs.length : Int)) then false
  else
    match (specUnionTimestamps evs rps).max? with
    | some m => decide (((now - m : Int) : ℚ) / 86400000 < MAX_DAYS_INACTIVE)
    | none => false

lemma foldl_max_max (l : List Int) (a b : Int) :
    l.foldl max (max a b) = max a (l.foldl max b) := by
  induction l generalizing b with
  | nil => rfl
  | cons c l ih =>
    simp only [List.foldl_cons]
    rw [max_assoc]
    exact ih (max b c)

lemma le_foldl_max (l : List Int) (a : Int) : a ≤ l.foldl max a := by
  induction l generalizing a with
  | nil => exact le_refl a
  | cons c l ih => exact le_trans (le_max_left a c) (ih (max a c))

lemma mem_le_foldl_max (l : List Int) (a t : Int) (h : t ∈ l) :
    t ≤ l.foldl max a := by
  induction l generalizing a with
  | nil => cases h
  | cons c l ih =>
    rcases List.mem_cons.mp h with h | h
    · subst h
      exact le_trans (le_max_right a t) (le_foldl_max l (max a t))
    · simpa using ih (max a c) h

lemma max?_foldl (l : List Int) (hl : l ≠ []) :
    ∃ m, l.max? = some m ∧ l.foldl max 0 = max 0 m := by
  cases l with
  | nil => exact absurd rfl hl
  | cons a as =>
    refine ⟨as.foldl max a, rfl, ?_⟩
    simpa using foldl_max_max as 0 a

lemma foldl_of_itemDates (items : List ActivityItem) (a : Int) :
    items.foldl (fun acc it => (itemDates it).foldl max acc) a =
      (items.flatMap itemDates).foldl max a := by
  induction items generalizing a with
  | nil => rfl
  | cons it items ih =>
    simp only [List.foldl_cons, List.flatMap_cons, List.foldl_append]
    exact ih _

lemma latestActivity_eq_union (evs : List GitHubEvent)
    (rps : List GitHubRepo) :
    latestActivity (toActivityItems evs rps) =
      (specUnionTimestamps evs rps).foldl max 0 := by
  rw [latestActivity, foldl_of_itemDates]
  congr 1
  simp only [toActivityItems, specUnionTimestamps, List.flatMap_append]
  congr 1
  · induction evs with
    | nil => rfl
    | cons e evs ih => simp [itemDates, ih]
  · induction rps with
    | nil => rfl
    | cons r rps ih => simp [itemDates, ih]

lemma mem_le_max? (l : List Int) (m t : Int) (hm : l.max? = some m)
    (ht : t ∈ l) : t ≤ m := by
  cases l with
  | nil => cases ht
  | cons a as =>
    have hma : m = as.foldl max a := by
      simpa [List.max?] using hm.symm
    subst hma
    rcases List.mem_cons.mp ht with h | h
    · subst h; exact le_foldl_max as t
    · exact mem_le_foldl_max as a t h

/-- In the final (recency) check, the code's epoch-seeded maximum agrees
with the spec's union maximum as soon as some timestamp is nonnegative. -/
lemma recency_eq (evs : List GitHubEvent) (rps : List GitHubRepo)
    (now : Int) (hne : evs ≠ [])
    (h : ∃ t ∈ specUnionTimestamps evs rps, 0 ≤ t) :
    decide
        (((now - latestActivity (toActivityItems evs rps) : Int) : ℚ) /
          86400000 < MAX_DAYS_INACTIVE) =
      (match (specUnionTimestamps evs rps).max? with
       | some m =>
           decide (((now - m : Int) : ℚ) / 86400000 < MAX_DAYS_INACTIVE)
       | none => false) := by
  have hune : specUnionTimestamps evs rps ≠ [] := by
    cases evs with
    | nil => exact absurd rfl hne
    | cons e evs => simp [specUnionTimestamps]
  obtain ⟨m, hm, hfold⟩ := max?_foldl _ hune
  obtain ⟨t, ht, h0t⟩ := h
  have h0m : 0 ≤ m := le_trans h0t (mem_le_max? _ m t hm ht)
  rw [latestActivity_eq_union, hfold, max_eq_right h0m, hm]

/-- Code-versus-spec equality of the eligibility predicate, under the
proviso that some timestamp in the union is nonnegative (on or after the
epoch); without it the code's `new Date(0)` seed can mask the true
maximum. -/
lemma isActive_eq_spec (u : GitHubUser) (evs : List GitHubEvent)
    (rps : List GitHubRepo) (now : Int)
    (h : ∃ t ∈ specUnionTimestamps evs rps, 0 ≤ t) :
    isActiveUser (some u) (some evs) (some rps) now =
      specEligible u evs rps now := by
  have estar : ((!(rps.any fun r =>
        decide (MIN_STARS ≤ r.stargazers_count))) = true) ↔
      ¬ (∃ r ∈ rps, MIN_STARS ≤ r.stargazers_count) := by
    simp [List.any_eq_true]
  simp only [isActiveUser, specEligible]
  by_cases h1 : MIN_FOLLOWERS ≤ u.followers ∧ MIN_REPOS ≤ u.public_repos
  · rw [if_neg (show ¬ (u.followers < MIN_FOLLOWERS ∨
        u.public_repos < MIN_REPOS) by omega),
        if_neg (not_not_intro h1)]
    by_cases h2 : MIN_REPOS ≤ (rps.length : Int)
    · rw [if_neg (show ¬ ((rps.length : Int) < MIN_REPOS) by omega),
          if_neg (not_not_intro h2)]
      by_cases h3 : ∃ r ∈ rps, MIN_STARS ≤ r.stargazers_count
      · rw [if_neg ((not_congr estar).mpr (not_not_intro h3)),
            if_neg (not_not_intro h3)]
        by_cases h4 : MIN_EVENTS ≤ (evs.length : Int)
        · rw [if_neg (show ¬ ((evs.length : Int) < MIN_EVENTS) by omega),
              if_neg (not_not_intro h4)]
          have hne : evs ≠ [] := by
            cases evs with
            | nil =>
              simp only [MIN_EVENTS, List.length_nil] at h4
              omega
            | cons e evs => simp
          exact recency_eq evs rps now hne h
        · rw [if_pos (show (evs.length : Int) < MIN_EVENTS by omega),
              if_pos h4]
      · rw [if_pos (estar.mpr h3), if_pos h3]
    · rw [if_pos (show (rps.length : Int) < MIN_REPOS by omega), if_pos h2]
  · rw [if_pos (show u.followers < MIN_FOLLOWERS ∨
        u.public_repos < MIN_REPOS by omega), if_pos h1]

/-- C7 (amended): the eligibility verdict equals the reference five-step
short-circuit predicate whenever some timestamp in the union is on or
after the epoch (the code seeds its maximum with `new Date(0)`, so for
all-pre-epoch timestamps the two can differ); and the recency boundary is
strict: a candidate otherwise eligible whose latest activity is 29.9 days
old is eligible, at 30.1 days old ineligible. -/
theorem classifier_matches_spec :
    (∀ (u : GitHubUser) (evs : List GitHubEvent) (rps : List GitHubRepo)
        (now : Int), (∃ t ∈ specUnionTimestamps evs rps, 0 ≤ t) →
      isActiveUser (some u) (some evs) (some rps) now =
        specEligible u evs rps now) ∧
    isActiveUser (some ⟨"b", 1, 3⟩)
      (some [⟨997416640000⟩, ⟨997416640000⟩, ⟨997416640000⟩,
        ⟨997416640000⟩, ⟨997416640000⟩])
      (some [⟨1, 997416640000, 997416640000, 997416640000⟩,
        ⟨1, 997416640000, 997416640000, 997416640000⟩,
        ⟨1, 997416640000, 997416640000, 997416640000⟩])
      1000000000000 = true ∧
    isActiveUser (some ⟨"b", 1, 3⟩)
      (some [⟨997399360000⟩, ⟨997399360000⟩, ⟨997399360000⟩,
        ⟨997399360000⟩, ⟨997399360000⟩])
      (some [⟨1, 997399360000, 997399360000, 997399360000⟩,
        ⟨1, 997399360000, 997399360000, 997399360000⟩,
        ⟨1, 997399360000, 997399360000, 997399360000⟩])
      1000000000000 = false := by
  refine ⟨fun u evs rps now h => isActive_eq_spec u evs rps now h, ?_, ?_⟩
  · norm_num [isActiveUser, latestActivity, toActivityItems, itemDates,
      MIN_FOLLOWERS, MIN_REPOS, MIN_STARS, MIN_EVENTS, MAX_DAYS_INACTIVE,
      max_def]
  · norm_num [isActiveUser, latestActivity, toActivityItems, itemDates,
      MIN_FOLLOWERS, MIN_REPOS, MIN_STARS, MIN_EVENTS, MAX_DAYS_INACTIVE,
      max_def]

/-- Counterexample to C7 as stated: with every timestamp 100 days before
the epoch and `Date.now()` at the epoch, the code's epoch-seeded maximum
is `0`, so the code classifies the candidate eligible while the reference
predicate's union maximum is 100 days in the past and classifies it
ineligible. -/
theorem classifier_matches_spec_counterexample :
    ¬ (isActiveUser (some ⟨"c", 1, 3⟩)
      (some [⟨-8640000000⟩, ⟨-8640000000⟩, ⟨-8640000000⟩,
        ⟨-8640000000⟩, ⟨-8640000000⟩])
      (some [⟨1, -8640000000, -8640000000, -8640000000⟩,
        ⟨1, -8640000000, -8640000000, -8640000000⟩,
        ⟨1, -8640000000, -8640000000, -8640000000⟩]) 0 =
    specEligible ⟨"c", 1, 3⟩
      [⟨-8640000000⟩, ⟨-8640000000⟩, ⟨-8640000000⟩,
        ⟨-8640000000⟩, ⟨-8640000000⟩]
      [⟨1, -8640000000, -8640000000, -8640000000⟩,
        ⟨1, -8640000000, -8640000000, -8640000000⟩,
        ⟨1, -8640000000, -8640000000, -8640000000⟩] 0) := by
  norm_num [isActiveUser, specEligible, latestActivity, toActivityItems,
    itemDates, specUnionTimestamps, List.max?, MIN_FOLLOWERS, MIN_REPOS,
    MIN_STARS, MIN_EVENTS, MAX_DAYS_INACTIVE, max_def]

/-- Witness for C7's amended theorem: its refinement part applied at the
29.9-day boundary candidate, whose timestamps are nonnegative. -/
theorem classifier_matches_spec_witness :
    isActiveUser (some ⟨"b", 1, 3⟩)
      (some [⟨997416640000⟩, ⟨997416640000⟩, ⟨997416640000⟩,
        ⟨997416640000⟩, ⟨997416640000⟩])
      (some [⟨1, 997416640000, 997416640000, 997416640000⟩,
        ⟨1, 997416640000, 997416640000, 997416640000⟩,
        ⟨1, 997416640000, 997416640000, 997416640000⟩])
      1000000000000 =
    specEligible ⟨"b", 1, 3⟩
      [⟨997416640000⟩, ⟨997416640000⟩, ⟨997416640000⟩,
        ⟨997416640000⟩, ⟨997416640000⟩]
      [⟨1, 997416640000, 997416640000, 997416640000⟩,
        ⟨1, 997416640000, 997416640000, 997416640000⟩,
        ⟨1, 997416640000, 997416640000, 997416640000⟩]
      1000000000000 :=
  classifier_matches_spec.1 _ _ _ _
    ⟨997416640000, by simp [specUnionTimestamps], by norm_num⟩

/-! ## CandidateSource (`src/unnamed/part_001`, lines 123-167)

`getAllFollowers` paginates over the upstream follower collection.  Each
HTTP request is answered by an oracle indexed by the running request
count, with three possible outcomes mirroring the source's branches:
a 403 throttle carrying a retry-after duration (line 139), any other
failure — a thrown fetch/parse error or a non-2xx status, both of which
land in the `catch` (lines 145-147, 156-163) — and a successful page of
followers.  The `while` loop is run on explicit fuel; `none` means the
fuel ran out before the loop exited. -/

inductive FetchResult where
  | throttled (retryAfter : Int)
  | fetchError
  | okPage (users : List GitHubUser)
  deriving Repr

structure FetchState where
  allFollowers : List GitHubUser
  page : Nat
  consecutiveErrors : Nat
  requests : Nat
  clock : Int
  deriving Repr

/-- One source iteration of the `while` loop of `getAllFollowers`.  The
returned `Bool` records whether the loop ended at the `break` for an
empty page (`true`) or because the `while` guard failed (`false`). -/
def fetchLoop (oracle : Nat → FetchResult) :
    Nat → FetchState → Option (FetchState × Bool)
  | 0, _ => none
  | fuel + 1, s =>
    if s.page ≤ MAX_PAGES ∧ s.allFollowers.length < MAX_FOLLOWERS then
      match oracle s.requests with
      | .throttled retryAfter =>
          -- status 403: sleep retry-after seconds, `continue` on the same page
          fetchLoop oracle fuel
            { s with requests := s.requests + 1,
                     clock := s.clock + retryAfter * 1000 }
      | .fetchError =>
          -- catch: bump the consecutive-error counter, pause at the threshold
          let n := s.consecutiveErrors + 1
          if MAX_CONSECUTIVE_ERRORS ≤ n then
            fetchLoop oracle fuel
              { s with requests := s.requests + 1, consecutiveErrors := 0,
                       clock := s.clock + PAUSE_DURATION }
          else
            fetchLoop oracle fuel
              { s with requests := s.requests + 1, consecutiveErrors := n }
      | .okPage [] => some ({ s with requests := s.requests + 1 }, true)
      | .okPage (u :: us) =>
          fetchLoop oracle fuel
            { s with requests := s.requests + 1,
                     allFollowers := s.allFollowers ++ (u :: us),
                     consecutiveErrors := 0,
                     clock := s.clock + PAGINATION_DELAY,
                     page := s.page + 1 }
    else some (s, false)

/-- `getAllFollowers` (lines 123-167): run the pagination loop from page 1
with empty accumulators, then truncate with `slice(0, MAX_FOLLOWERS)`. -/
def getAllFollowers (oracle : Nat → FetchResult) (fuel : Nat) :
    Option (List GitHubUser) :=
  (fetchLoop oracle fuel ⟨[], 1, 0, 0, 0⟩).map
    (fun r => r.1.allFollowers.take MAX_FOLLOWERS)

/-- A distinguishable follower, used by the concrete pagination
scenarios. -/
def mkFollower (i : Nat) : GitHubUser := ⟨"u", i, 0⟩

/-- Upstream scripted to answer the first two requests with full pages of
100 followers and every later request with an empty page. -/
def twoPageOracle : Nat → FetchResult := fun r =>
  if r = 0 then .okPage ((List.range 100).map mkFollower)
  else if r = 1 then .okPage ((List.range 100).map fun i => mkFollower (100 + i))
  else .okPage []

set_option maxRecDepth 40000 in
/-- C4: `getAllFollowers` (a) always truncates its result to
`MAX_FOLLOWERS`; (b) whenever the loop exits normally it does so either at
the empty-page `break` or with the page counter past `MAX_PAGES` or the
accumulator at `MAX_FOLLOWERS` — whichever comes first; (c) on an
upstream returning pages of sizes 100, 100, 0 it stops right after the
empty page (three requests) and returns exactly the 200 candidates in
order. -/
theorem getAllFollowers_bounds :
    (∀ (oracle : Nat → FetchResult) (fuel : Nat) (l : List GitHubUser),
      getAllFollowers oracle fuel = some l → l.length ≤ MAX_FOLLOWERS) ∧
    (∀ (oracle : Nat → FetchResult) (fuel : Nat) (s : FetchState)
        (out : FetchState × Bool), fetchLoop oracle fuel s = some out →
      out.2 = true ∨ MAX_PAGES < out.1.page ∨
        MAX_FOLLOWERS ≤ out.1.allFollowers.length) ∧
    getAllFollowers twoPageOracle 4 =
      some ((List.range 200).map mkFollower) ∧
    fetchLoop twoPageOracle 4 ⟨[], 1, 0, 0, 0⟩ =
      some (⟨(List.range 200).map mkFollower, 3, 0, 3, 4000⟩, true) := by
  refine ⟨?_, ?_, ?_, ?_⟩
  · intro oracle fuel l hl
    simp only [getAllFollowers, Option.map_eq_some'] at hl
    obtain ⟨r, _, hr⟩ := hl
    rw [← hr]
    simpa using List.length_take_le MAX_FOLLOWERS r.1.allFollowers
  · intro oracle fuel
    induction fuel with
    | zero => intro s out h; simp [fetchLoop] at h
    | succ fuel ih =>
      intro s out h
      rw [fetchLoop] at h
      by_cases hg : s.page ≤ MAX_PAGES ∧ s.allFollowers.length < MAX_FOLLOWERS
      · rw [if_pos hg] at h
        rcases horacle : oracle s.requests with r | _ | users
        · rw [horacle] at h
          exact ih _ _ h
        · rw [horacle] at h
          dsimp only at h
          split at h
          · exact ih _ _ h
          · exact ih _ _ h
        · rw [horacle] at h
          cases users with
          | nil =>
            simp only [Option.some_inj] at h
            left
            rw [← h]
          | cons u us => exact ih _ _ h
      · rw [if_neg hg] at h
        simp only [Option.some_inj] at h
        rw [← h]
        dsimp only
        simp only [not_and, not_lt] at hg
        by_cases hp : s.page ≤ MAX_PAGES
        · exact Or.inr (Or.inr (hg hp))
        · exact Or.inr (Or.inl (by omega))
  · rfl
  · rfl

/-- Witness for C4 at concrete inputs: both bound statements applied to
the two-page scenario run. -/
theorem getAllFollowers_bounds_witness :
    ((List.range 200).map mkFollower).length ≤ MAX_FOLLOWERS ∧
    ((true : Bool) = true ∨ MAX_PAGES < 3 ∨
      MAX_FOLLOWERS ≤ ((List.range 200).map mkFollower).length) := by
  constructor
  · exact getAllFollowers_bounds.1 twoPageOracle 4 _
      getAllFollowers_bounds.2.2.1
  · exact getAllFollowers_bounds.2.1 twoPageOracle 4 ⟨[], 1, 0, 0, 0⟩ _
      getAllFollowers_bounds.2.2.2

/-- C5: a throttled (HTTP 403) page response makes the fetch loop sleep
for the response's retry-after duration and re-enter with the same page
counter, the same accumulated followers and the same consecutive-error
counter — only the request count and the clock move. -/
theorem fetch_throttle_retries_same_page
    (oracle : Nat → FetchResult) (fuel : Nat) (s : FetchState) (r : Int)
    (hpage : s.page ≤ MAX_PAGES)
    (hlen : s.allFollowers.length < MAX_FOLLOWERS)
    (horacle : oracle s.requests = .throttled r) :
    fetchLoop oracle (fuel + 1) s =
      fetchLoop oracle fuel
        { s with requests := s.requests + 1,
                 clock := s.clock + r * 1000 } := by
  rw [fetchLoop, if_pos ⟨hpage, hlen⟩, horacle]

/-- Witness for C5 at a concrete input: a first request answered with a
60-second throttle re-enters the loop at page 1 with no error counted. -/
theorem fetch_throttle_retries_same_page_witness :
    fetchLoop (fun _ => FetchResult.throttled 60) 1 ⟨[], 1, 0, 0, 0⟩ =
      fetchLoop (fun _ => FetchResult.throttled 60) 0 ⟨[], 1, 0, 1, 60000⟩ :=
  fetch_throttle_retries_same_page _ 0 _ 60 (by decide) (by decide) rfl

/-! ## Orchestrator (`src/unnamed/part_001`, lines 236-349)

The batch half of `handler`: after `getAllFollowers()` returns, the
handler slices the requested page window and processes its candidates
sequentially.  The environment of one candidate bundles everything the
outside world contributes to its iteration: the three classifier fetch
outcomes, the status of the `PUT` follow request, its `retry-after`
header, and the sampled `getRandomDelay()` jitter. -/

structure CandEnv where
  profile : Option GitHubUser
  events : Option (List GitHubEvent)
  repos : Option (List GitHubRepo)
  followStatus : Nat
  retryAfter : Int
  randomDelay : Int

/-- The handler's per-batch mutable locals (lines 266-270) together with
the rate limiter it gates actions through and the model clock. -/
structure BatchState where
  processedUsers : List String
  activeUsers : List String
  errorCount : Nat
  rateLimitHits : Nat
  consecutiveActions : Nat
  rl : RLState
  clock : Int

/-- The classification a candidate receives inside the loop: the
`isActiveUser` call at line 286, evaluated at the current clock. -/
def classify (e : CandEnv) (s : BatchState) : Bool :=
  isActiveUser e.profile e.events e.repos s.clock

/-- The handler's per-candidate `catch` (lines 309-316): count the error,
and at the threshold pause and reset the counter. -/
def recordBatchError (s : BatchState) : BatchState :=
  let n := s.errorCount + 1
  if ERROR_THRESHOLD ≤ n then
    { s with errorCount := 0, clock := s.clock + PAUSE_DURATION }
  else { s with errorCount := n }

/-- One iteration of the `for (const follower of paginatedFollowers)` loop
(lines 276-317).  The only statement that can throw inside the `try` is
the non-ok non-403 follow response (line 302); that path jumps to the
`catch`, skipping the jitter and check-interval sleeps. -/
def processOne (e : CandEnv) (s0 : BatchState) (u : GitHubUser) :
    BatchState :=
  -- processedUsers.push(follower.login)
  let s1 := { s0 with processedUsers := s0.processedUsers ++ [u.login] }
  -- anti-detection cooldown after too many consecutive actions
  let s2 :=
    if MAX_CONSECUTIVE_ACTIONS ≤ s1.consecutiveActions then
      { s1 with clock := s1.clock + COOL_DOWN_PERIOD,
                consecutiveActions := 0 }
    else s1
  if classify e s2 then
    let r := waitForRateLimit s2.rl s2.clock
    let s3 := { s2 with rl := r.state, clock := r.finish }
    let outcome :=
      if e.followStatus = 204 then
        some { s3 with activeUsers := s3.activeUsers ++ [u.login],
                       consecutiveActions := s3.consecutiveActions + 1 }
      else if e.followStatus = 403 then
        some { s3 with rateLimitHits := s3.rateLimitHits + 1,
                       clock := s3.clock + e.retryAfter * 1000 }
      else if 200 ≤ e.followStatus ∧ e.followStatus < 300 then some s3
      else none
    match outcome with
    | some s4 =>
        { s4 with clock := s4.clock + e.randomDelay + CHECK_INTERVAL }
    | none => recordBatchError s3
  else
    { s2 with clock := s2.clock + CHECK_INTERVAL }

/-- The candidate loop over the page window; the i-th iteration consumes
the i-th candidate environment. -/
def runWindow (env : Nat → CandEnv) :
    Nat → BatchState → List GitHubUser → BatchState
  | _, s, [] => s
  | i, s, u :: us => runWindow env (i + 1) (processOne (env i) s u) us

/-- ECMAScript `Array.prototype.slice(start, stop)`: negative indices
count from the end, then both are clamped to `[0, length]`. -/
def jsSlice (l : List α) (start stop : Int) : List α :=
  let len : Int := l.length
  let k := if start < 0 then max (len + start) 0 else min start len
  let fin := if stop < 0 then max (len + stop) 0 else min stop len
  (l.drop k.toNat).take (fin - k).toNat

/-- The fields of the handler's 200 response that the engine computes
(lines 319-338); the presentation-only fields (timestamp, monitoring
percentages, pagination echo) are omitted. -/
structure FollowResponse where
  followed : List String
  processed : List String
  total_processed : Nat
  rate_limit_hits : Nat
  errors : Nat
  consecutive_actions : Nat

/-- The batch half of `handler` (lines 254-338): slice the page window
out of the fetched follower list — `page` and `limit` are the raw values
produced by `parseInt(query) || default`, which the source never
validates — run the candidate loop, and assemble the response. -/
def runBatch (allFollowers : List GitHubUser) (page limit : Int)
    (env : Nat → CandEnv) (rl0 : RLState) (clock0 : Int) : FollowResponse :=
  let startIndex := (page - 1) * limit
  let endIndex := startIndex + limit
  let paginatedFollowers := jsSlice allFollowers startIndex endIndex
  let final := runWindow env 0 ⟨[], [], 0, 0, 0, rl0, clock0⟩
    paginatedFollowers
  { followed := final.activeUsers,
    processed := final.processedUsers,
    total_processed := final.processedUsers.length,
    rate_limit_hits := final.rateLimitHits,
    errors := final.errorCount,
    consecutive_actions := final.consecutiveActions }

lemma processOne_processed (e : CandEnv) (s : BatchState) (u : GitHubUser) :
    (processOne e s u).processedUsers = s.processedUsers ++ [u.login] := by
  simp only [processOne, recordBatchError]
  split_ifs <;> rfl

lemma processOne_followed (e : CandEnv) (s : BatchState) (u : GitHubUser) :
    ∃ t, (processOne e s u).activeUsers = s.activeUsers ++ t ∧
      t.length ≤ 1 ∧ ∀ x ∈ t, x = u.login := by
  simp only [processOne, recordBatchError]
  split_ifs <;>
    first
      | exact ⟨[u.login], rfl, by simp, by simp⟩
      | exact ⟨[], by simp, by simp, by simp⟩

lemma processOne_errorCount (e : CandEnv) (s : BatchState) (u : GitHubUser)
    (h : s.errorCount < ERROR_THRESHOLD) :
    (processOne e s u).errorCount < ERROR_THRESHOLD := by
  simp only [processOne, recordBatchError, ERROR_THRESHOLD] at *
  split_ifs <;> simp_all <;> omega

lemma runWindow_processed (env : Nat → CandEnv) (i : Nat) (s : BatchState)
    (us : List GitHubUser) :
    (runWindow env i s us).processedUsers =
      s.processedUsers ++ us.map GitHubUser.login := by
  induction us generalizing i s with
  | nil => simp [runWindow]
  | cons u us ih =>
    rw [runWindow, ih, processOne_processed]
    simp

lemma runWindow_followed (env : Nat → CandEnv) (i : Nat) (s : BatchState)
    (us : List GitHubUser) :
    ∃ t, (runWindow env i s us).activeUsers = s.activeUsers ++ t ∧
      t.length ≤ us.length ∧ ∀ x ∈ t, x ∈ us.map GitHubUser.login := by
  induction us generalizing i s with
  | nil => exact ⟨[], by simp [runWindow], by simp, by simp⟩
  | cons u us ih =>
    obtain ⟨t1, ht1, hl1, hm1⟩ := processOne_followed (env i) s u
    obtain ⟨t2, ht2, hl2, hm2⟩ := ih (i + 1) (processOne (env i) s u)
    refine ⟨t1 ++ t2, ?_, ?_, ?_⟩
    · rw [runWindow, ht2, ht1, List.append_assoc]
    · simp only [List.length_append, List.length_cons]
      omega
    · intro x hx
      rcases List.mem_append.mp hx with hx | hx
      · simp [hm1 x hx]
      · simp only [List.map_cons, List.mem_cons]
        right
        exact hm2 x hx
  termination_by us.length

lemma runWindow_errorCount (env : Nat → CandEnv) (i : Nat) (s : BatchState)
    (us : List GitHubUser) (h : s.errorCount < ERROR_THRESHOLD) :
    (runWindow env i s us).errorCount < ERROR_THRESHOLD := by
  induction us generalizing i s with
  | nil => simpa [runWindow] using h
  | cons u us ih =>
    rw [runWindow]
    exact ih _ _ (processOne_errorCount _ _ _ h)

/-- A window slice `slice(start, start + limit)` with nonnegative `limit`
has at most `limit` elements.  (For negative `limit` no such bound holds:
`slice` then interprets the stop index from the end of the array.) -/
lemma jsSlice_window_length {α : Type} (l : List α) (start limit : Int)
    (h : 0 ≤ limit) :
    ((jsSlice l start (start + limit)).length : Int) ≤ limit := by
  simp only [jsSlice, List.length_take, List.length_drop]
  split_ifs <;> omega

/-- C1 (amended): for every batch run whose caller-supplied `limit` is
nonnegative, every followed identifier is a processed identifier,
`|followed| ≤ |processed| ≤ limit`, and the processed list is exactly the
logins of the page-window slice (one entry per candidate).  For negative
`limit` — reachable because the query parameter is parsed with
`parseInt(...) || 5` and never validated — the slice reads its stop index
from the end of the array and the bound fails. -/
theorem batch_window_bounds (allFollowers : List GitHubUser)
    (page limit : Int) (env : Nat → CandEnv) (rl0 : RLState) (clock0 : Int)
    (h : 0 ≤ limit) :
    (∀ x ∈ (runBatch allFollowers page limit env rl0 clock0).followed,
      x ∈ (runBatch allFollowers page limit env rl0 clock0).processed) ∧
    (runBatch allFollowers page limit env rl0 clock0).followed.length ≤
      (runBatch allFollowers page limit env rl0 clock0).processed.length ∧
    ((runBatch allFollowers page limit env rl0 clock0).processed.length :
      Int) ≤ limit ∧
    (runBatch allFollowers page limit env rl0 clock0).processed =
      (jsSlice allFollowers ((page - 1) * limit)
        ((page - 1) * limit + limit)).map GitHubUser.login := by
  have hproc : (runBatch allFollowers page limit env rl0 clock0).processed =
      (jsSlice allFollowers ((page - 1) * limit)
        ((page - 1) * limit + limit)).map GitHubUser.login := by
    simp only [runBatch]
    rw [runWindow_processed]
    simp
  obtain ⟨t, ht, hl, hm⟩ :=
    runWindow_followed env 0 ⟨[], [], 0, 0, 0, rl0, clock0⟩
      (jsSlice allFollowers ((page - 1) * limit)
        ((page - 1) * limit + limit))
  have hfoll : (runBatch allFollowers page limit env rl0 clock0).followed =
      t := by
    simp only [runBatch]
    rw [ht]
    simp
  refine ⟨?_, ?_, ?_, hproc⟩
  · intro x hx
    rw [hfoll] at hx
    rw [hproc]
    exact hm x hx
  · rw [hfoll, hproc, List.length_map]
    exact hl
  · rw [hproc, List.length_map]
    exact jsSlice_window_length allFollowers ((page - 1) * limit) limit h

/-- Counterexample to C1 as stated: with two fetched followers, `page=1`
and `limit=-1` (the value `parseInt` produces for `?limit=-1`), the slice
`slice(0, -1)` keeps one candidate, so `|processed| = 1 > limit`. -/
theorem batch_window_bounds_counterexample :
    ¬ (((runBatch [⟨"u1", 0, 0⟩, ⟨"u2", 0, 0⟩] 1 (-1)
      (fun _ => ⟨none, none, none, 0, 0, 0⟩) ⟨0, 0, 0⟩ 0).processed.length :
        Int) ≤ -1) := by
  decide

/-- Witness for C1's amended theorem at a concrete batch: two followers,
`page=1`, `limit=5`, both classification fetches failed. -/
theorem batch_window_bounds_witness :
    (∀ x ∈ (runBatch [⟨"u1", 0, 0⟩, ⟨"u2", 0, 0⟩] 1 5
        (fun _ => ⟨none, none, none, 0, 0, 0⟩) ⟨0, 0, 0⟩ 0).followed,
      x ∈ (runBatch [⟨"u1", 0, 0⟩, ⟨"u2", 0, 0⟩] 1 5
        (fun _ => ⟨none, none, none, 0, 0, 0⟩) ⟨0, 0, 0⟩ 0).processed) ∧
    (runBatch [⟨"u1", 0, 0⟩, ⟨"u2", 0, 0⟩] 1 5
      (fun _ => ⟨none, none, none, 0, 0, 0⟩) ⟨0, 0, 0⟩ 0).followed.length ≤
      (runBatch [⟨"u1", 0, 0⟩, ⟨"u2", 0, 0⟩] 1 5
        (fun _ => ⟨none, none, none, 0, 0, 0⟩) ⟨0, 0, 0⟩ 0).processed.length ∧
    ((runBatch [⟨"u1", 0, 0⟩, ⟨"u2", 0, 0⟩] 1 5
      (fun _ => ⟨none, none, none, 0, 0, 0⟩) ⟨0, 0, 0⟩ 0).processed.length :
        Int) ≤ 5 ∧
    (runBatch [⟨"u1", 0, 0⟩, ⟨"u2", 0, 0⟩] 1 5
      (fun _ => ⟨none, none, none, 0, 0, 0⟩) ⟨0, 0, 0⟩ 0).processed =
      (jsSlice [⟨"u1", 0, 0⟩, ⟨"u2", 0, 0⟩] ((1 - 1) * 5)
        ((1 - 1) * 5 + 5)).map GitHubUser.login :=
  batch_window_bounds [⟨"u1", 0, 0⟩, ⟨"u2", 0, 0⟩] 1 5
    (fun _ => ⟨none, none, none, 0, 0, 0⟩) ⟨0, 0, 0⟩ 0 (by decide)

/-- C10: the `errors` field of every batch response is strictly below
`ERROR_THRESHOLD`, because the per-candidate catch resets the counter to
zero (after the long pause) the moment it reaches the threshold — the
caller only ever observes the residual count since the last reset. -/
theorem batch_errors_below_threshold :
    (∀ (allFollowers : List GitHubUser) (page limit : Int)
        (env : Nat → CandEnv) (rl0 : RLState) (clock0 : Int),
      (runBatch allFollowers page limit env rl0 clock0).errors <
        ERROR_THRESHOLD) ∧
    (∀ s : BatchState, ERROR_THRESHOLD ≤ s.errorCount + 1 →
      recordBatchError s =
        { s with errorCount := 0, clock := s.clock + PAUSE_DURATION }) := by
  constructor
  · intro allFollowers page limit env rl0 clock0
    simp only [runBatch]
    exact runWindow_errorCount env 0 ⟨[], [], 0, 0, 0, rl0, clock0⟩ _
      (by simp [ERROR_THRESHOLD])
  · intro s hs
    simp only [recordBatchError, if_pos hs]

/-- Witness for C10 at concrete inputs: a batch over one candidate whose
follow request failed reports fewer than 5 errors, and a state with 4
accumulated errors resets to 0 (after the pause) on the fifth. -/
theorem batch_errors_below_threshold_witness :
    (runBatch [⟨"u1", 0, 0⟩] 1 5
      (fun _ => ⟨none, none, none, 0, 0, 0⟩) ⟨0, 0, 0⟩ 0).errors <
      ERROR_THRESHOLD ∧
    recordBatchError ⟨[], [], 4, 0, 0, ⟨0, 0, 0⟩, 0⟩ =
      ⟨[], [], 0, 0, 0, ⟨0, 0, 0⟩, 0 + PAUSE_DURATION⟩ :=
  ⟨batch_errors_below_threshold.1 _ _ _ _ _ _,
    batch_errors_below_threshold.2 _ (by decide)⟩

lemma isActiveUser_fail (p : Option GitHubUser)
    (ev : Option (List GitHubEvent)) (rp : Option (List GitHubRepo))
    (h : p = none ∨ ev = none ∨ rp = none) (now : Int) :
    isActiveUser p ev rp now = false := by
  rcases h with h | h | h <;> subst h <;>
    first
      | (cases ev <;> cases rp <;> rfl)
      | (cases p <;> cases rp <;> rfl)
      | (cases p <;> cases ev <;> rfl)

/-- C6 (amended): if any of the classifier's three fetches fails, the
candidate is classified ineligible (fail-closed) and the failure is not
re-raised — the batch loop takes the ordinary skip path, leaving the
error counter and the followed list untouched (the failure is only
logged; it does not contribute to the batch's error accounting). -/
theorem classifier_fail_closed :
    (∀ (p : Option GitHubUser) (ev : Option (List GitHubEvent))
        (rp : Option (List GitHubRepo)) (now : Int),
      p = none ∨ ev = none ∨ rp = none → isActiveUser p ev rp now = false) ∧
    (∀ (e : CandEnv) (s : BatchState) (u : GitHubUser),
      e.profile = none ∨ e.events = none ∨ e.repos = none →
      (processOne e s u).errorCount = s.errorCount ∧
      (processOne e s u).activeUsers = s.activeUsers ∧
      (processOne e s u).processedUsers = s.processedUsers ++ [u.login]) := by
  constructor
  · intro p ev rp now h
    exact isActiveUser_fail p ev rp h now
  · intro e s u h
    simp only [processOne, classify, isActiveUser_fail _ _ _ h,
      Bool.false_eq_true, if_false]
    refine ⟨?_, ?_, ?_⟩ <;> split_ifs <;> rfl

/-- Counterexample to C6 as stated: a batch over a single candidate whose
profile fetch failed reports `errors = 0` — the classification failure is
not counted into the batch's error accounting, contrary to the claim's
last conjunct. -/
theorem classifier_fail_closed_counterexample :
    (runBatch [⟨"u", 0, 0⟩] 1 5
      (fun _ => ⟨none, some [], some [], 204, 0, 0⟩) ⟨0, 0, 0⟩ 0).errors =
      0 ∧
    (runBatch [⟨"u", 0, 0⟩] 1 5
      (fun _ => ⟨none, some [], some [], 204, 0, 0⟩) ⟨0, 0, 0⟩ 0).processed =
      ["u"] ∧
    (runBatch [⟨"u", 0, 0⟩] 1 5
      (fun _ => ⟨none, some [], some [], 204, 0, 0⟩) ⟨0, 0, 0⟩ 0).followed =
      [] := by
  refine ⟨rfl, rfl, rfl⟩

/-- Witness for C6's amended theorem at a concrete candidate whose events
fetch failed. -/
theorem classifier_fail_closed_witness :
    isActiveUser (some ⟨"w", 9, 9⟩) none (some []) 0 = false ∧
    (processOne ⟨some ⟨"w", 9, 9⟩, none, some [], 204, 0, 0⟩
      ⟨[], [], 2, 1, 3, ⟨0, 0, 0⟩, 77⟩ ⟨"w", 9, 9⟩).errorCount = 2 ∧
    (processOne ⟨some ⟨"w", 9, 9⟩, none, some [], 204, 0, 0⟩
      ⟨[], [], 2, 1, 3, ⟨0, 0, 0⟩, 77⟩ ⟨"w", 9, 9⟩).activeUsers = [] := by
  refine ⟨classifier_fail_closed.1 _ _ _ 0 (Or.inr (Or.inl rfl)), ?_, ?_⟩
  · exact (classifier_fail_closed.2 ⟨some ⟨"w", 9, 9⟩, none, some [], 204, 0, 0⟩
      ⟨[], [], 2, 1, 3, ⟨0, 0, 0⟩, 77⟩ ⟨"w", 9, 9⟩ (Or.inr (Or.inl rfl))).1
  · exact (classifier_fail_closed.2 ⟨some ⟨"w", 9, 9⟩, none, some [], 204, 0, 0⟩
      ⟨[], [], 2, 1, 3, ⟨0, 0, 0⟩, 77⟩ ⟨"w", 9, 9⟩ (Or.inr (Or.inl rfl))).2.1

/-- C8: classification is pure.  The verdict a candidate receives inside
the batch loop is a function of its own fetch results and the clock
alone: two batch states agreeing on the clock — whatever their followed
lists, counters or rate-limiter state — classify identically, and the
verdict is exactly the stateless `isActiveUser` of the fetched data.  No
engine state is read or written and no past verdict is cached. -/
theorem classification_pure :
    (∀ (e : CandEnv) (s₁ s₂ : BatchState), s₁.clock = s₂.clock →
      classify e s₁ = classify e s₂) ∧
    (∀ (e : CandEnv) (s : BatchState),
      classify e s = isActiveUser e.profile e.events e.repos s.clock) := by
  constructor
  · intro e s₁ s₂ h
    simp only [classify, h]
  · intro e s
    rfl

/-- Witness for C8: two batch states with equal clocks but different
counters, lists and limiter state classify a candidate identically. -/
theorem classification_pure_witness :
    classify ⟨some ⟨"x", 5, 5⟩, some [], some [], 204, 60, 2000⟩
      ⟨[], [], 0, 0, 0, ⟨0, 0, 0⟩, 12345⟩ =
    classify ⟨some ⟨"x", 5, 5⟩, some [], some [], 204, 60, 2000⟩
      ⟨["a"], ["a"], 4, 7, 9, ⟨3, 1, 2⟩, 12345⟩ :=
  classification_pure.1 _ _ _ rfl

/-- C9: interpretation of the follow-request response in the ACT step,
for a candidate classified eligible (stated below the anti-detection cap,
so the cooldown does not interfere): a 204 appends the login to the
followed list and increments the consecutive-action counter; a 403
increments the rate-limit-hit counter and sleeps the response's
retry-after (the clock advances by `retryAfter * 1000` on top of the
admit completion, jitter and check interval); any non-2xx other than 403
throws into the per-candidate catch, bumping the batch-local error
counter (with its threshold reset) and touching nothing else — and the
loop always continues: every candidate of the window is processed. -/
theorem act_response_interpretation :
    (∀ (e : CandEnv) (s : BatchState) (u : GitHubUser),
      s.consecutiveActions < MAX_CONSECUTIVE_ACTIONS →
      isActiveUser e.profile e.events e.repos s.clock = true →
      ((e.followStatus = 204 →
        (processOne e s u).activeUsers = s.activeUsers ++ [u.login] ∧
        (processOne e s u).consecutiveActions = s.consecutiveActions + 1 ∧
        (processOne e s u).errorCount = s.errorCount ∧
        (processOne e s u).rateLimitHits = s.rateLimitHits) ∧
      (e.followStatus = 403 →
        (processOne e s u).rateLimitHits = s.rateLimitHits + 1 ∧
        (processOne e s u).activeUsers = s.activeUsers ∧
        (processOne e s u).errorCount = s.errorCount ∧
        (processOne e s u).consecutiveActions = s.consecutiveActions ∧
        (processOne e s u).clock =
          (waitForRateLimit s.rl s.clock).finish + e.retryAfter * 1000 +
            e.randomDelay + CHECK_INTERVAL) ∧
      (¬ (200 ≤ e.followStatus ∧ e.followStatus < 300) →
        ¬ (e.followStatus = 403) →
        (processOne e s u).errorCount =
          (if ERROR_THRESHOLD ≤ s.errorCount + 1 then 0
           else s.errorCount + 1) ∧
        (processOne e s u).activeUsers = s.activeUsers ∧
        (processOne e s u).consecutiveActions = s.consecutiveActions ∧
        (processOne e s u).rateLimitHits = s.rateLimitHits))) ∧
    (∀ (env : Nat → CandEnv) (i : Nat) (s : BatchState)
        (us : List GitHubUser),
      (runWindow env i s us).processedUsers.length =
        s.processedUsers.length + us.length) := by
  constructor
  · intro e s u hca hcl
    have hno : ¬ (MAX_CONSECUTIVE_ACTIONS ≤ s.consecutiveActions) :=
      not_le.mpr hca
    refine ⟨?_, ?_, ?_⟩
    · intro h204
      simp only [processOne, classify]
      rw [if_neg hno, hcl]
      simp only [eq_self_iff_true, if_true, if_pos h204]
      simp
    · intro h403
      have hn204 : ¬ (e.followStatus = 204) := by omega
      simp only [processOne, classify]
      rw [if_neg hno, hcl]
      simp only [eq_self_iff_true, if_true, if_neg hn204, if_pos h403]
      refine ⟨by simp, by simp, by simp, by simp, ?_⟩
      simp
    · intro hok h403
      have hn204 : ¬ (e.followStatus = 204) := by omega
      simp only [processOne, classify, recordBatchError]
      rw [if_neg hno, hcl]
      simp only [eq_self_iff_true, if_true, if_neg hn204, if_neg h403,
        if_neg hok]
      split_ifs <;> simp_all
  · intro env i s us
    induction us generalizing i s with
    | nil => simp [runWindow]
    | cons u us ih =>
      rw [runWindow, ih, processOne_processed]
      simp
      omega

/-- Witness for C9 at concrete inputs: an eligible candidate whose follow
request returned 204 is appended to the followed list, and a two-element
window is fully processed. -/
theorem act_response_interpretation_witness :
    ((processOne ⟨some ⟨"x", 1, 3⟩,
        some [⟨900000⟩, ⟨900000⟩, ⟨900000⟩, ⟨900000⟩, ⟨900000⟩],
        some [⟨1, 900000, 900000, 900000⟩, ⟨1, 900000, 900000, 900000⟩,
          ⟨1, 900000, 900000, 900000⟩], 204, 60, 2500⟩
      ⟨[], [], 0, 0, 0, ⟨0, 0, 0⟩, 1000000⟩ ⟨"x", 1, 3⟩).activeUsers =
      [] ++ ["x"]) ∧
    (runWindow (fun _ => ⟨none, none, none, 0, 0, 0⟩) 0
      ⟨[], [], 0, 0, 0, ⟨0, 0, 0⟩, 0⟩
      [⟨"a", 0, 0⟩, ⟨"b", 0, 0⟩]).processedUsers.length = 0 + 2 := by
  constructor
  · exact ((act_response_interpretation.1 _ _ _ (by decide)
      (by norm_num [isActiveUser, latestActivity, toActivityItems,
        itemDates, MIN_FOLLOWERS, MIN_REPOS, MIN_STARS, MIN_EVENTS,
        MAX_DAYS_INACTIVE, max_def])).1 rfl).1
  · exact act_response_interpretation.2 _ 0 _ _

end Sheikh
